import Mathlib

/-!
Verification of the reply-bot pipeline (`twt.py` / `ai.py`).

Shallow embedding notes:
* Texts and keywords are modelled as `List Char`; Python's substring test
  `k in text` is modelled by `hasSub`.
* Timestamps are integers: epoch seconds for the scanner (`soft_scan_cycle`),
  epoch milliseconds for the classification cache (matching `time.time()*1000`).
* Python `set` objects (`replied`, `seen_ids`) are modelled as `Finset Int`.
* The browser collaborator (Playwright) is modelled by environment records
  whose fields give the outcome of each DOM query / interaction, and the
  embedded functions additionally record the list of browser operations they
  perform and the list of durable writes they issue.
-/

/-- Python `t.startswith(k)` on character lists: `hasLead k t` holds when `t`
starts with `k`. Auxiliary for the substring test. -/
def hasLead : List Char → List Char → Bool
  | [], _ => true
  | _ :: _, [] => false
  | c :: cs, d :: ds => c == d && hasLead cs ds

/-- Python substring containment `k in t` on character lists. -/
def hasSub : List Char → List Char → Bool
  | [], k => hasLead k []
  | t@(_ :: ts), k => hasLead k t || hasSub ts k

/-- Embeds `passes_prefilter` (twt.py:334-342): reject when the text is empty
or shorter than 5 characters, when it contains none of the positive keywords,
or when it contains any negative keyword. -/
def passes_prefilter (text : List Char) (pos_keywords neg_keywords : List (List Char)) : Bool :=
  if text = [] || text.length < 5 then false
  else if !(pos_keywords.any fun k => hasSub text k) then false
  else if neg_keywords.any fun n => hasSub text n then false
  else true

/-- The mutable `stats` dictionary of `twt.py`, restricted to the counters the
embedded functions touch. Python's `stats.get(k, 0) + 1` updates become field
increments. -/
structure Stats where
  found : Nat
  found_last : Nat
  age : Nat
  cand : Nat
  skip_kata : Nat
  ai_disabled : Nat
  ai_amb : Nat
  duplicate : Nat
  skip_tombol : Nat
  skip_closed : Nat
  net_error : Nat
  replied : Nat
deriving DecidableEq, Repr

/-- A fresh all-zero stats dictionary. -/
def stats0 : Stats := ⟨0, 0, 0, 0, 0, 0, 0, 0, 0, 0, 0, 0⟩

/-- The `Candidate` dataclass (twt.py:384-390). `element` is an opaque browser
handle (`Any` in the source), modelled as `Unit`; `created_at` is epoch
seconds UTC. -/
structure Candidate where
  tid : Int
  author : List Char
  created_at : Int
  element : Unit
  text : List Char
deriving DecidableEq, Repr

/-- The `ReplyResult` dataclass (twt.py:393-397): `action` is `"reply"` or
`"skip"`, `durations` is the informational timing dictionary. -/
structure ReplyResult where
  action : String
  reason : String
  durations : List (String × Nat)
deriving DecidableEq, Repr

/-- Python `href.split("/")` on character lists: split at every slash, keeping
empty pieces (the result is always non-empty). -/
def splitOnSlash : List Char → List (List Char)
  | [] => [[]]
  | c :: cs =>
    if c = '/' then [] :: splitOnSlash cs
    else
      match splitOnSlash cs with
      | [] => [[c]]
      | p :: ps => (c :: p) :: ps

/-- Value of a decimal digit character, `none` on anything else. -/
def digitVal (c : Char) : Option Nat :=
  if c.isDigit then some (c.toNat - 48) else none

/-- Decimal parse of a non-empty digit string. -/
def parseNatDigits : List Char → Option Nat
  | [] => none
  | s =>
    s.foldl
      (fun acc c =>
        match acc, digitVal c with
        | some n, some d => some (10 * n + d)
        | _, _ => none)
      (some 0)

/-- Python `int(s)` restricted to an optional leading minus sign followed by
decimal digits; `none` models a `ValueError`. -/
def parseIntPy : List Char → Option Int
  | '-' :: rest => (parseNatDigits rest).map fun n => -(n : Int)
  | s => (parseNatDigits s).map fun n => (n : Int)

/-- The post id extracted from a permalink: `int(href.split("/")[-1])`
(twt.py:477); `none` models the caught `ValueError`. -/
def tidOfHref (href : List Char) : Option Int :=
  parseIntPy ((splitOnSlash href).getLastD [])

/-- The author handle extracted from a permalink: `href.split("/")[1]`
(twt.py:480). -/
def authorOfHref (href : List Char) : List Char :=
  (splitOnSlash href).getD 1 []

/-- One `article` row as seen by `soft_scan_cycle`. `link` models the
permalink query and its `href` attribute (`none` = no link element,
`some none` = link without `href`); `tm` models the `time` element and its
`datetime` attribute, already parsed to epoch seconds (`none` = no time
element, `some none` = time element without the attribute). `text` is the
row's `inner_text`. -/
structure Row where
  link : Option (Option (List Char))
  tm : Option (Option Int)
  text : List Char
deriving DecidableEq, Repr

/-- The state threaded through one scan: the in-memory `seen_ids` set, the
stats dictionary and the accumulated candidate list. -/
structure ScanSt where
  seen : Finset Int
  stats : Stats
  cands : List Candidate
deriving DecidableEq

/-- The per-row body of the `for art in arts` loop of `soft_scan_cycle`
(twt.py:469-497): extract id and author from the permalink, skip rows already
seen or replied, extract the creation timestamp, age out rows strictly older
than `max_age_hours` (marking them seen), otherwise emit a `Candidate`
(marking it seen). `nowS` and `created` are epoch seconds, so the source's
`timedelta(hours=max_age_hours)` is `maxAgeHours * 3600`. -/
def scanRow (nowS maxAgeHours : Int) (replied : Finset Int) (st : ScanSt) (r : Row) : ScanSt :=
  match r.link with
  | none => st
  | some none => st
  | some (some href) =>
    match tidOfHref href with
    | none => st
    | some tid =>
      let user := authorOfHref href
      if tid ∈ st.seen ∨ tid ∈ replied then st
      else
        match r.tm with
        | none => st
        | some none => st
        | some (some created) =>
          if nowS - created > maxAgeHours * 3600 then
            { st with
                stats := { st.stats with age := st.stats.age + 1 }
                seen := insert tid st.seen }
          else
            { st with
                cands := st.cands ++ [⟨tid, user, created, (), r.text⟩]
                seen := insert tid st.seen }

/-- Embeds `soft_scan_cycle` (twt.py:455-508): bump the `found` counters for
the queried rows, then run the per-row loop. The trailing mouse-wheel scroll
is a pure browser action with no effect on the returned state. -/
def soft_scan_cycle (nowS maxAgeHours : Int) (replied seen : Finset Int)
    (stats : Stats) (rows : List Row) : ScanSt :=
  let stats1 := { stats with
      found := stats.found + rows.length
      found_last := rows.length }
  rows.foldl (scanRow nowS maxAgeHours replied) ⟨seen, stats1, []⟩

/-- Descending creation-time order on candidates, the key order of
`prioritize`. -/
def candGE (a b : Candidate) : Prop := b.created_at ≤ a.created_at

instance : DecidableRel candGE := fun a b =>
  inferInstanceAs (Decidable (b.created_at ≤ a.created_at))

instance : IsTotal Candidate candGE := ⟨fun a b => le_total b.created_at a.created_at⟩

instance : IsTrans Candidate candGE := ⟨fun _ _ _ hab hbc => le_trans hbc hab⟩

/-- Embeds `prioritize` (twt.py:511-512):
`sorted(candidates, key=lambda c: c.created_at, reverse=True)`. Python's
`sorted` is a stable sort; with `reverse=True` it produces the descending
order in which equal keys retain their input order, which is exactly what a
stable insertion sort along `candGE` produces. -/
def prioritize (candidates : List Candidate) : List Candidate :=
  List.insertionSort candGE candidates

/-- The cache time-to-live `AI_CACHE_TTL_MS` (twt.py:92): 24 hours in
milliseconds. -/
def AI_CACHE_TTL_MS : Int := 86400000

/-- The `AI_CACHE` dictionary (twt.py:93), keyed by normalized text, holding
`(label, insertedAtMs)`. Modelled as an association list where insertion
conses in front, matching dictionary overwrite semantics under `cacheGet`. -/
def Cache := List (List Char × (String × Int))

/-- Python `AI_CACHE.get(cache_key)` (twt.py:834). -/
def cacheGet (cache : Cache) (key : List Char) : Option (String × Int) :=
  match cache with
  | [] => none
  | (k, v) :: rest => if k = key then some v else cacheGet rest key

/-- The non-stale cache lookup of the run loop (twt.py:834-835):
`cached = AI_CACHE.get(cache_key)` followed by
`if cached and now_ms - cached[1] < AI_CACHE_TTL_MS`. Returns the cached
label when the entry exists and is fresh, `none` otherwise. -/
def cacheFresh (cache : Cache) (key : List Char) (nowMs : Int) : Option String :=
  match cacheGet cache key with
  | some (label, t0) => if nowMs - t0 < AI_CACHE_TTL_MS then some label else none
  | none => none

/-- Outcome of the per-candidate gate in the run loop: skipped by the keyword
prefilter (recorded reason `"prefilter"`), skipped by the AI label check
(recorded reason `"ai_amb"`), or passed on to `attempt_reply` with the label
in effect. -/
inductive GateOut
  | skipPrefilter
  | skipAiAmb (label : String)
  | proceed (label : String)
deriving DecidableEq, Repr

/-- Result of the per-candidate gate: the decision, the cache and stats after
the step, and whether a `classify_text` call was issued. -/
structure GateRes where
  out : GateOut
  cache : Cache
  stats : Stats
  aiCalled : Bool

/-- Embeds the per-candidate classification gate of the run loop
(twt.py:817-879): the optional keyword prefilter, then (when AI is enabled)
the cache lookup, the `classify_text` call on a miss (`classifyRes` is the
call's result; `none` models an unavailable classifier, which leaves the
label at its initial `"pembeli"` and bumps `ai_disabled`), caching of a
definitive result, and finally the `label != "pembeli"` check. The source
initializes `label = "pembeli"` and tests it once after the branches; the
embedding distributes that test into the branches, which yields the same
outcome in each case. -/
def candidateGate (pre_filter ai_enabled : Bool) (pos_kws neg_kws : List (List Char))
    (cache : Cache) (nowMs : Int) (classifyRes : Option String)
    (normText : List Char) (stats : Stats) : GateRes :=
  if pre_filter && !(passes_prefilter normText pos_kws neg_kws) then
    { out := .skipPrefilter
      cache := cache
      stats := { stats with skip_kata := stats.skip_kata + 1 }
      aiCalled := false }
  else if ai_enabled then
    match cacheFresh cache normText nowMs with
    | some label =>
      if label = "pembeli" then
        { out := .proceed label, cache := cache, stats := stats, aiCalled := false }
      else
        { out := .skipAiAmb label
          cache := cache
          stats := { stats with ai_amb := stats.ai_amb + 1 }
          aiCalled := false }
    | none =>
      match classifyRes with
      | none =>
        { out := .proceed "pembeli"
          cache := cache
          stats := { stats with ai_disabled := stats.ai_disabled + 1 }
          aiCalled := true }
      | some label =>
        if label = "pembeli" then
          { out := .proceed label
            cache := (normText, (label, nowMs)) :: cache
            stats := stats
            aiCalled := true }
        else
          { out := .skipAiAmb label
            cache := (normText, (label, nowMs)) :: cache
            stats := { stats with ai_amb := stats.ai_amb + 1 }
            aiCalled := true }
  else
    { out := .proceed "pembeli", cache := cache, stats := stats, aiCalled := false }

/-- Modelled from the spec: the threshold decision of the classification gate
(spec section 4.4 step 4), which the source does not implement — require the
returned label to equal the target label `"pembeli"` AND the returned
confidence to be at least the threshold (default `0.8`). `classify_text`
(ai.py:68-74) returns only an optional label string, so the source has no
confidence channel at all. -/
def specThresholdDecision (label : String) (confidence threshold : ℚ) : Bool :=
  label == "pembeli" && decide (threshold ≤ confidence)

/-- The lowered toast keyword with an apostrophe, written via its code point. -/
def cantKw : List Char := "can".toList ++ [Char.ofNat 39, 't']

/-- The disabled-or-absent test applied to both the reply affordance and the
submit affordance: `not btn or await btn.get_attribute("aria-disabled") ==
"true"` (twt.py:533 and 564). `none` is an absent element; `some a` carries
its `aria-disabled` attribute. -/
def btnMissingOrDisabled : Option (Option String) → Bool
  | none => true
  | some aria => aria == some "true"

/-- The toast rejection test (twt.py:585) on the lowered toast text:
`"reply" in msg and ("can't" in msg or "cannot" in msg or "tidak" in msg)`. -/
def toastRejects (msg : List Char) : Bool :=
  hasSub msg "reply".toList &&
    (hasSub msg cantKw || hasSub msg "cannot".toList || hasSub msg "tidak".toList)

/-- The toast step (twt.py:582-591): `none` models a `TimeoutError` waiting
for the toast (no rejection); otherwise the toast text is lowered and
checked. -/
def toastIndicatesClosed : Option (List Char) → Bool
  | none => false
  | some txt => toastRejects (txt.map Char.toLower)

/-- Browser-collaborator environment for one `attempt_reply` invocation: the
result of each DOM query and whether each awaited interaction completes
before its timeout. `t0..t3` are the `perf_counter` readings already scaled
to milliseconds. -/
structure ReplyEnv where
  replyBtn : Option (Option String)
  clickOk : Bool
  composerOk : Bool
  fillOk : Bool
  sendBtn : Option (Option String)
  sendClickOk : Bool
  toastText : Option (List Char)
  t0 : Nat
  t1 : Nat
  t2 : Nat
  t3 : Nat

/-- The `timers` dictionary: bounded rolling windows of interval samples. -/
def Timers := List (String × List Nat)

/-- Python `timers[k] = timers[k][-10:]` (twt.py:595-596). -/
def trim10 (l : List Nat) : List Nat :=
  if l.length > 10 then l.drop (l.length - 10) else l

/-- One step of the `for k, v in durations.items()` loop (twt.py:593-596):
`timers.setdefault(k, []).append(v)` then trim to the last 10 samples. -/
def timersAppend (ts : Timers) (k : String) (v : Nat) : Timers :=
  match ts with
  | [] => [(k, trim10 [v])]
  | (k2, l) :: rest =>
    if k2 = k then (k2, trim10 (l ++ [v])) :: rest
    else (k2, l) :: timersAppend rest k v

/-- Result of one `attempt_reply` invocation: the returned `ReplyResult`, the
`replied` set and `stats`/`timers` after the call, the list of
`save_replied` writes issued during the call, and the trace of browser
operations performed (used to state that the duplicate guard fires before
any browser interaction). -/
structure ReplyOut where
  res : ReplyResult
  replied : Finset Int
  stats : Stats
  timers : Timers
  writes : List (Finset Int)
  ops : List String

/-- Embeds `attempt_reply` (twt.py:518-602). Control flow, in source order:
the duplicate guard against `replied`; the reply-affordance check
(`skip_tombol`); click, composer wait and fill, any of whose timeouts yields
`net_error`; the dry-run branch (`dry_run`, partial durations, composer
dismissed, post not marked replied); the submit-affordance check
(`reply_closed`); the submit click (timeout `net_error`); the toast check
(`reply_closed` with full durations); and the success tail, which records
timings, adds the id to `replied`, persists via `save_replied` and returns
`("reply", "balas_ok")`. -/
def attempt_reply (env : ReplyEnv) (cand : Candidate) (dry_run : Bool)
    (replied : Finset Int) (stats : Stats) (timers : Timers) : ReplyOut :=
  if cand.tid ∈ replied then
    { res := ⟨"skip", "duplicate", []⟩
      replied := replied
      stats := { stats with duplicate := stats.duplicate + 1 }
      timers := timers, writes := [], ops := [] }
  else if btnMissingOrDisabled env.replyBtn then
    { res := ⟨"skip", "skip_tombol", []⟩
      replied := replied
      stats := { stats with skip_tombol := stats.skip_tombol + 1 }
      timers := timers, writes := [], ops := ["query_reply_button"] }
  else if !env.clickOk then
    { res := ⟨"skip", "net_error", []⟩
      replied := replied
      stats := { stats with net_error := stats.net_error + 1 }
      timers := timers, writes := []
      ops := ["query_reply_button", "click_reply"] }
  else if !env.composerOk then
    { res := ⟨"skip", "net_error", []⟩
      replied := replied
      stats := { stats with net_error := stats.net_error + 1 }
      timers := timers, writes := []
      ops := ["query_reply_button", "click_reply", "wait_composer"] }
  else if !env.fillOk then
    { res := ⟨"skip", "net_error", []⟩
      replied := replied
      stats := { stats with net_error := stats.net_error + 1 }
      timers := timers, writes := []
      ops := ["query_reply_button", "click_reply", "wait_composer", "fill_composer"] }
  else if dry_run then
    { res := ⟨"skip", "dry_run",
        [("candidate_to_click", env.t1 - env.t0), ("click_to_textbox", env.t2 - env.t1)]⟩
      replied := replied
      stats := stats
      timers := timers, writes := []
      ops := ["query_reply_button", "click_reply", "wait_composer", "fill_composer",
              "press_escape"] }
  else if btnMissingOrDisabled env.sendBtn then
    { res := ⟨"skip", "reply_closed", []⟩
      replied := replied
      stats := { stats with skip_closed := stats.skip_closed + 1 }
      timers := timers, writes := []
      ops := ["query_reply_button", "click_reply", "wait_composer", "fill_composer",
              "query_send_button", "press_escape"] }
  else if !env.sendClickOk then
    { res := ⟨"skip", "net_error", []⟩
      replied := replied
      stats := { stats with net_error := stats.net_error + 1 }
      timers := timers, writes := []
      ops := ["query_reply_button", "click_reply", "wait_composer", "fill_composer",
              "query_send_button", "click_send"] }
  else if toastIndicatesClosed env.toastText then
    { res := ⟨"skip", "reply_closed",
        [("candidate_to_click", env.t1 - env.t0), ("click_to_textbox", env.t2 - env.t1),
         ("textbox_to_submit", env.t3 - env.t2)]⟩
      replied := replied
      stats := { stats with skip_closed := stats.skip_closed + 1 }
      timers := timers, writes := []
      ops := ["query_reply_button", "click_reply", "wait_composer", "fill_composer",
              "query_send_button", "click_send", "wait_toast", "press_escape"] }
  else
    { res := ⟨"reply", "balas_ok",
        [("candidate_to_click", env.t1 - env.t0), ("click_to_textbox", env.t2 - env.t1),
         ("textbox_to_submit", env.t3 - env.t2)]⟩
      replied := insert cand.tid replied
      stats := { stats with replied := stats.replied + 1 }
      timers :=
        timersAppend
          (timersAppend (timersAppend timers "candidate_to_click" (env.t1 - env.t0))
            "click_to_textbox" (env.t2 - env.t1))
          "textbox_to_submit" (env.t3 - env.t2)
      writes := [insert cand.tid replied]
      ops := ["query_reply_button", "click_reply", "wait_composer", "fill_composer",
              "query_send_button", "click_send", "wait_toast"] }

/-- The slice of the filesystem `save_replied` touches: the canonical
`replied_ids.json` and its `.tmp` sibling in the same directory, each either
absent or holding a serialized id list. -/
structure FS where
  canonical : Option (List Int)
  tmp : Option (List Int)
deriving DecidableEq, Repr

/-- The atomic steps of `save_replied` (twt.py:320-327): write+flush of the
temporary file, `os.fsync` of it, and the atomic `os.replace` over the
canonical file. -/
inductive SaveStep
  | writeTmp
  | fsyncTmp
  | rename
deriving DecidableEq, Repr

/-- Effect of one step on the filesystem: writing the temporary file fills
it, `fsync` only forces it to stable storage, and `os.replace` atomically
moves the temporary file over the canonical one. -/
def stepSave (ids : List Int) (fs : FS) : SaveStep → FS
  | .writeTmp => { fs with tmp := some ids }
  | .fsyncTmp => fs
  | .rename => { canonical := fs.tmp, tmp := none }

/-- The step sequence `save_replied` executes, in source order. -/
def saveSteps : List SaveStep := [.writeTmp, .fsyncTmp, .rename]

/-- Run a prefix of the save step sequence; a crash is modelled as executing
only the first `k` steps. -/
def runSaveSteps (ids : List Int) (fs : FS) (steps : List SaveStep) : FS :=
  steps.foldl (stepSave ids) fs

/-- Embeds `save_replied` (twt.py:320-327): the full, uninterrupted step
sequence. -/
def save_replied (ids : List Int) (fs : FS) : FS :=
  runSaveSteps ids fs saveSteps

/-- C2: `save_replied` writes the serialized id list to a temporary file,
flushes and fsyncs it, then atomically renames it over the canonical file;
a crash after the temporary file is written (after step 1 or step 2 of the
three-step sequence) but before the rename leaves the canonical file exactly
equal to its pre-write contents, while the completed sequence installs the
new list. -/
theorem save_replied_atomic (ids : List Int) (fs : FS) (k : Nat)
    (h1 : 1 ≤ k) (h2 : k ≤ 2) :
    (runSaveSteps ids fs (saveSteps.take k)).canonical = fs.canonical ∧
    (runSaveSteps ids fs (saveSteps.take k)).tmp = some ids ∧
    (save_replied ids fs).canonical = some ids := by
  interval_cases k <;>
    simp [runSaveSteps, saveSteps, stepSave, save_replied]

/-- Witness for `save_replied_atomic` at `ids = [7]`, a canonical file holding
`[1, 2]`, and a crash after the first step. -/
theorem save_replied_atomic_witness :
    (runSaveSteps [7] ⟨some [1, 2], none⟩ (saveSteps.take 1)).canonical = some [1, 2] ∧
    (save_replied [7] ⟨some [1, 2], none⟩).canonical = some [7] := by
  have h := save_replied_atomic [7] ⟨some [1, 2], none⟩ 1 (by decide) (by decide)
  exact ⟨h.1, h.2.2⟩

/-- C8: `prioritize` returns the candidates sorted by `created_at` descending
(newest first), as a permutation of the input, and the sort is stable: for
each timestamp the candidates carrying it appear in the output in the same
relative order as in the input; on timestamps [T−5m, T−1m, T−10m]
(T = 1000s) the output order is [T−1m, T−5m, T−10m]. -/
theorem prioritize_sorted_stable (l : List Candidate) :
    (prioritize l).Sorted candGE ∧
    (prioritize l).Perm l ∧
    (∀ t : Int, (prioritize l).filter (fun c => c.created_at == t) =
      l.filter (fun c => c.created_at == t)) ∧
    prioritize [⟨1, [], 700, (), []⟩, ⟨2, [], 940, (), []⟩, ⟨3, [], 400, (), []⟩] =
      [⟨2, [], 940, (), []⟩, ⟨1, [], 700, (), []⟩, ⟨3, [], 400, (), []⟩] := by
  refine ⟨List.sorted_insertionSort candGE l, List.perm_insertionSort candGE l, ?_, by decide⟩
  intro t
  set p : Candidate → Bool := fun c => c.created_at == t with hp
  have hall : ∀ a ∈ l.filter p, ∀ b ∈ l.filter p, candGE a b := by
    intro a ha b hb
    have ha2 : a.created_at = t := by
      have := (List.mem_filter.mp ha).2
      simpa [hp] using this
    have hb2 : b.created_at = t := by
      have := (List.mem_filter.mp hb).2
      simpa [hp] using this
    unfold candGE
    rw [ha2, hb2]
  have hpair : (l.filter p).Pairwise candGE := List.pairwise_of_forall_mem_list hall
  have hsubl : List.Sublist (l.filter p) (List.insertionSort candGE l) :=
    List.sublist_insertionSort hpair (List.filter_sublist l)
  have hsub2 : List.Sublist (l.filter p) ((List.insertionSort candGE l).filter p) := by
    have := hsubl.filter p
    simpa using this
  have hperm : ((List.insertionSort candGE l).filter p).Perm (l.filter p) :=
    (List.perm_insertionSort candGE l).filter p
  have hlen : (l.filter p).length = ((List.insertionSort candGE l).filter p).length :=
    (hperm.length_eq).symm
  exact (hsub2.eq_of_length hlen).symm

/-- C10: with an empty positive-keyword list, `passes_prefilter` rejects
every text (the `any` over positive keywords is vacuously false), so with the
prefilter enabled the per-candidate gate skips every candidate with reason
`prefilter` and never reaches a reply attempt, whatever the AI settings,
cache, classifier result or negative keywords. -/
theorem prefilter_empty_positive (text : List Char) (neg_kws : List (List Char))
    (ai_enabled : Bool) (cache : Cache) (nowMs : Int) (classifyRes : Option String)
    (stats : Stats) :
    passes_prefilter text [] neg_kws = false ∧
    (candidateGate true ai_enabled [] neg_kws cache nowMs classifyRes text stats).out =
      GateOut.skipPrefilter := by
  have h : passes_prefilter text [] neg_kws = false := by
    unfold passes_prefilter
    split
    · rfl
    · simp
  refine ⟨h, ?_⟩
  unfold candidateGate
  simp [h]

/-- C7: the scanner's age cutoff is a strict comparison — for a row whose id
parses, which is not already seen or replied, and which carries a parseable
creation timestamp, the row is aged out (age counter bumped, id marked seen,
no candidate emitted) exactly when `now − createdAt` strictly exceeds
`maxAgeHours`, and is emitted as a candidate (still marked seen) when
`now − createdAt ≤ maxAgeHours`, including exact equality. -/
theorem scan_age_strict (nowS maxAgeHours : Int) (replied : Finset Int) (st : ScanSt)
    (r : Row) (href : List Char) (tid created : Int)
    (hlink : r.link = some (some href)) (htid : tidOfHref href = some tid)
    (hseen : tid ∉ st.seen) (hrep : tid ∉ replied)
    (htm : r.tm = some (some created)) :
    (nowS - created > maxAgeHours * 3600 →
      scanRow nowS maxAgeHours replied st r =
        { st with stats := { st.stats with age := st.stats.age + 1 },
                  seen := insert tid st.seen }) ∧
    (nowS - created ≤ maxAgeHours * 3600 →
      scanRow nowS maxAgeHours replied st r =
        { st with cands := st.cands ++ [⟨tid, authorOfHref href, created, (), r.text⟩],
                  seen := insert tid st.seen }) := by
  obtain ⟨link, tm, text⟩ := r
  simp only at hlink htm
  subst hlink
  subst htm
  unfold scanRow
  simp only [htid]
  rw [if_neg (by simp [hseen, hrep])]
  constructor
  · intro h
    rw [if_pos h]
  · intro h
    rw [if_neg (by omega)]

/-- Witness for `scan_age_strict` at the boundary with `maxAgeHours = 3`:
a row aged exactly 3 hours (10800 s) is emitted as a candidate, and one aged
10801 s is aged out. -/
theorem scan_age_strict_witness :
    (scanRow 10800 3 ∅ ⟨∅, stats0, []⟩
        ⟨some (some "/u/status/77".toList), some (some 0), []⟩).cands =
      [⟨77, "u".toList, 0, (), []⟩] ∧
    (scanRow 10801 3 ∅ ⟨∅, stats0, []⟩
        ⟨some (some "/u/status/77".toList), some (some 0), []⟩).stats.age = 1 := by
  have h1 := scan_age_strict 10800 3 ∅ ⟨∅, stats0, []⟩
    ⟨some (some "/u/status/77".toList), some (some 0), []⟩ ("/u/status/77".toList) 77 0
    rfl (by decide) (by decide) (by decide) rfl
  have h2 := scan_age_strict 10801 3 ∅ ⟨∅, stats0, []⟩
    ⟨some (some "/u/status/77".toList), some (some 0), []⟩ ("/u/status/77".toList) 77 0
    rfl (by decide) (by decide) (by decide) rfl
  refine ⟨?_, ?_⟩
  · rw [h1.2 (by decide)]
    decide
  · rw [h2.1 (by decide)]
    decide

/-- The id a scanned row carries: the permalink must be present with an
`href` whose last slash-separated piece parses as an integer. -/
def rowKey (r : Row) : Option Int :=
  match r.link with
  | some (some href) => tidOfHref href
  | _ => none

/-- C4 counterexample: a row whose permalink parses to id 77 but which lacks
a `time` element is examined by the scan yet its id is NOT added to
`seen_ids` — the scan leaves the seen set empty, refuting that every
examined row is marked seen. -/
theorem scan_seen_missing_timestamp :
    tidOfHref "/u/status/77".toList = some 77 ∧
    (77 : Int) ∉ (soft_scan_cycle 0 3 ∅ ∅ stats0
      [⟨some (some "/u/status/77".toList), none, []⟩]).seen := by decide

/-- C4 amended: a row's id is added to the seen set by the scan step exactly
when the row carries a parseable permalink id that is not already in the
seen or replied sets and a `time` element with a `datetime` attribute
(such a row is then marked seen exactly once, whether aged out or emitted);
rows dropped earlier — no link, no `href`, unparseable id, already
seen/replied, or missing timestamp — are not marked seen. -/
theorem scan_seen_characterization (nowS maxAgeHours : Int) (replied : Finset Int)
    (st : ScanSt) (r : Row) (x : Int) :
    x ∈ (scanRow nowS maxAgeHours replied st r).seen ↔
      x ∈ st.seen ∨
        (rowKey r = some x ∧ x ∉ st.seen ∧ x ∉ replied ∧ ∃ c, r.tm = some (some c)) := by
  obtain ⟨link, tm, text⟩ := r
  unfold scanRow rowKey
  cases link with
  | none => simp
  | some o1 =>
    cases o1 with
    | none => simp
    | some href =>
      cases htid : tidOfHref href with
      | none => simp [htid]
      | some tid =>
        simp only [htid]
        by_cases hmem : tid ∈ st.seen ∨ tid ∈ replied
        · rw [if_pos hmem]
          simp only [Option.some_inj]
          constructor
          · exact Or.inl
          · rintro (h | ⟨rfl, hs, hr, -⟩)
            · exact h
            · rcases hmem with h1 | h1
              · exact absurd h1 hs
              · exact absurd h1 hr
        · rw [if_neg hmem]
          push_neg at hmem
          cases tm with
          | none => simp
          | some o2 =>
            cases o2 with
            | none => simp
            | some created =>
              dsimp only
              by_cases hage : nowS - created > maxAgeHours * 3600
              · rw [if_pos hage]
                simp only [Finset.mem_insert, Option.some_inj]
                constructor
                · rintro (rfl | h)
                  · exact Or.inr ⟨rfl, hmem.1, hmem.2, created, rfl⟩
                  · exact Or.inl h
                · rintro (h | ⟨rfl, -, -, -⟩)
                  · exact Or.inr h
                  · exact Or.inl rfl
              · rw [if_neg hage]
                simp only [Finset.mem_insert, Option.some_inj]
                constructor
                · rintro (rfl | h)
                  · exact Or.inr ⟨rfl, hmem.1, hmem.2, created, rfl⟩
                  · exact Or.inl h
                · rintro (h | ⟨rfl, -, -, -⟩)
                  · exact Or.inr h
                  · exact Or.inl rfl

/-- C6: when the prefilter does not block the candidate, a cache entry
`(label, t0)` for the normalized text is served — label reused, cache
untouched, no `classify_text` call — at any lookup time with
`now − t0 < AI_CACHE_TTL_MS`, and is never served once `now − t0` exceeds
the TTL, where a fresh classification call is issued instead. -/
theorem ai_cache_ttl (pre_filter : Bool) (pos_kws neg_kws : List (List Char))
    (cache : Cache) (key : List Char) (label : String) (t0 nowMs : Int)
    (classifyRes : Option String) (stats : Stats)
    (hpf : (pre_filter && !(passes_prefilter key pos_kws neg_kws)) = false)
    (hget : cacheGet cache key = some (label, t0)) :
    (nowMs - t0 < AI_CACHE_TTL_MS →
      (candidateGate pre_filter true pos_kws neg_kws cache nowMs classifyRes key stats).aiCalled
          = false ∧
      (candidateGate pre_filter true pos_kws neg_kws cache nowMs classifyRes key stats).out =
        (if label = "pembeli" then GateOut.proceed label else GateOut.skipAiAmb label) ∧
      (candidateGate pre_filter true pos_kws neg_kws cache nowMs classifyRes key stats).cache
          = cache) ∧
    (AI_CACHE_TTL_MS < nowMs - t0 →
      (candidateGate pre_filter true pos_kws neg_kws cache nowMs classifyRes key stats).aiCalled
          = true) := by
  unfold candidateGate cacheFresh
  rw [hget]
  constructor
  · intro hlt
    by_cases hl : label = "pembeli" <;> simp [hpf, hlt, hl]
  · intro hgt
    have hnlt : ¬(nowMs - t0 < AI_CACHE_TTL_MS) := by omega
    cases classifyRes with
    | none => simp [hpf, hnlt]
    | some l => by_cases hl : l = "pembeli" <;> simp [hpf, hnlt, hl]

/-- Witness for `ai_cache_ttl` at the boundary: an entry inserted at `t0 = 0`
is a cache hit at `TTL − 1 = 86399999` ms and triggers a fresh call at
`TTL + 1 = 86400001` ms. -/
theorem ai_cache_ttl_witness :
    (candidateGate false true [] [] [(['x'], ("pembeli", 0))] 86399999 none ['x'] stats0).aiCalled
        = false ∧
    (candidateGate false true [] [] [(['x'], ("pembeli", 0))] 86399999 none ['x'] stats0).out
        = GateOut.proceed "pembeli" ∧
    (candidateGate false true [] [] [(['x'], ("pembeli", 0))] 86400001 none ['x'] stats0).aiCalled
        = true := by
  have h1 := ai_cache_ttl false [] [] [(['x'], ("pembeli", 0))] ['x'] "pembeli" 0 86399999
    none stats0 (by decide) (by decide)
  have h2 := ai_cache_ttl false [] [] [(['x'], ("pembeli", 0))] ['x'] "pembeli" 0 86400001
    none stats0 (by decide) (by decide)
  refine ⟨(h1.1 (by decide)).1, ?_, h2.2 (by decide)⟩
  have := (h1.1 (by decide)).2.1
  simpa using this

/-- C5: with AI enabled and no fresh cache entry, a failed classification
call (`classify_text` returning `None`) leaves the candidate admissible —
the gate proceeds with the initial label `"pembeli"` — while the
`ai_disabled` ("AI unavailable") counter is incremented; the cache is left
unchanged and the failure produces a normal gate result, never an
exception. -/
theorem ai_unavailable_fail_open (pre_filter : Bool) (pos_kws neg_kws : List (List Char))
    (cache : Cache) (key : List Char) (nowMs : Int) (stats : Stats)
    (hpf : (pre_filter && !(passes_prefilter key pos_kws neg_kws)) = false)
    (hmiss : cacheFresh cache key nowMs = none) :
    (candidateGate pre_filter true pos_kws neg_kws cache nowMs none key stats).out =
      GateOut.proceed "pembeli" ∧
    (candidateGate pre_filter true pos_kws neg_kws cache nowMs none key stats).stats.ai_disabled =
      stats.ai_disabled + 1 ∧
    (candidateGate pre_filter true pos_kws neg_kws cache nowMs none key stats).aiCalled = true ∧
    (candidateGate pre_filter true pos_kws neg_kws cache nowMs none key stats).cache = cache := by
  unfold candidateGate
  rw [hmiss]
  simp [hpf]

/-- Witness for `ai_unavailable_fail_open`: empty cache, classifier down,
candidate proceeds and the counter reaches 1. -/
theorem ai_unavailable_fail_open_witness :
    (candidateGate false true [] [] [] 0 none ['x'] stats0).out = GateOut.proceed "pembeli" ∧
    (candidateGate false true [] [] [] 0 none ['x'] stats0).stats.ai_disabled = 1 := by
  have h := ai_unavailable_fail_open false [] [] [] ['x'] 0 stats0 (by decide) (by decide)
  exact ⟨h.1, h.2.1⟩

/-- C3 counterexample: the code's gate admits any definitive result labelled
`"pembeli"` unconditionally — `classify_text` returns only a label, so no
confidence is ever compared against the 0.8 threshold. Concretely, the gate
proceeds on label `"pembeli"` even though the spec's threshold decision at
confidence 1/2 against threshold 4/5 requires a skip. -/
theorem gate_confidence_ignored :
    (candidateGate false true [] [] [] 0 (some "pembeli") ['x'] stats0).out =
      GateOut.proceed "pembeli" ∧
    specThresholdDecision "pembeli" (1 / 2) (4 / 5) = false := by
  refine ⟨by decide, ?_⟩
  simp only [specThresholdDecision]
  norm_num

/-- C3 amended: when AI is enabled and the classifier returns a definitive
uncached result, the candidate proceeds to the reply attempt if and only if
the returned label equals `"pembeli"`; there is no confidence value and no
threshold comparison, and a candidate with any other label is skipped with
the `ai_amb` reason and counter. -/
theorem gate_label_only (pre_filter : Bool) (pos_kws neg_kws : List (List Char))
    (cache : Cache) (key : List Char) (nowMs : Int) (label : String) (stats : Stats)
    (hpf : (pre_filter && !(passes_prefilter key pos_kws neg_kws)) = false)
    (hmiss : cacheFresh cache key nowMs = none) :
    ((candidateGate pre_filter true pos_kws neg_kws cache nowMs (some label) key stats).out =
        GateOut.proceed label ↔ label = "pembeli") ∧
    (label ≠ "pembeli" →
      (candidateGate pre_filter true pos_kws neg_kws cache nowMs (some label) key stats).out =
        GateOut.skipAiAmb label ∧
      (candidateGate pre_filter true pos_kws neg_kws cache nowMs (some label) key
          stats).stats.ai_amb = stats.ai_amb + 1) := by
  unfold candidateGate
  rw [hmiss]
  by_cases hl : label = "pembeli" <;> simp [hpf, hl]

/-- Witness for `gate_label_only`: a `"penjual"` label is skipped as
ambiguous with the counter bumped. -/
theorem gate_label_only_witness :
    (candidateGate false true [] [] [] 0 (some "penjual") ['x'] stats0).out =
      GateOut.skipAiAmb "penjual" ∧
    (candidateGate false true [] [] [] 0 (some "penjual") ['x'] stats0).stats.ai_amb = 1 := by
  have h := gate_label_only false [] [] [] ['x'] 0 "penjual" stats0 (by decide) (by decide)
  exact h.2 (by decide)

/-- Case analysis of `attempt_reply`: every invocation either succeeds —
action `"reply"`, reason `"balas_ok"`, the candidate id inserted into the
replied set and exactly that set persisted — or skips with one of the five
skip reasons, leaving the replied set unchanged and issuing no write. -/
theorem attempt_reply_outcome (env : ReplyEnv) (cand : Candidate) (dry_run : Bool)
    (replied : Finset Int) (stats : Stats) (timers : Timers) :
    ((attempt_reply env cand dry_run replied stats timers).res.action = "reply" ∧
      (attempt_reply env cand dry_run replied stats timers).res.reason = "balas_ok" ∧
      (attempt_reply env cand dry_run replied stats timers).replied =
        insert cand.tid replied ∧
      (attempt_reply env cand dry_run replied stats timers).writes =
        [insert cand.tid replied]) ∨
    ((attempt_reply env cand dry_run replied stats timers).res.action = "skip" ∧
      (attempt_reply env cand dry_run replied stats timers).res.reason ∈
        (["duplicate", "skip_tombol", "net_error", "dry_run", "reply_closed"] : List String) ∧
      (attempt_reply env cand dry_run replied stats timers).replied = replied ∧
      (attempt_reply env cand dry_run replied stats timers).writes = []) := by
  unfold attempt_reply
  by_cases h1 : cand.tid ∈ replied
  · rw [if_pos h1]; right; simp
  · rw [if_neg h1]
    by_cases h2 : btnMissingOrDisabled env.replyBtn = true
    · rw [if_pos h2]; right; simp
    · rw [if_neg h2]
      by_cases h3 : (!env.clickOk) = true
      · rw [if_pos h3]; right; simp
      · rw [if_neg h3]
        by_cases h4 : (!env.composerOk) = true
        · rw [if_pos h4]; right; simp
        · rw [if_neg h4]
          by_cases h5 : (!env.fillOk) = true
          · rw [if_pos h5]; right; simp
          · rw [if_neg h5]
            by_cases h6 : dry_run = true
            · rw [if_pos h6]; right; simp
            · rw [if_neg h6]
              by_cases h7 : btnMissingOrDisabled env.sendBtn = true
              · rw [if_pos h7]; right; simp
              · rw [if_neg h7]
                by_cases h8 : (!env.sendClickOk) = true
                · rw [if_pos h8]; right; simp
                · rw [if_neg h8]
                  by_cases h9 : toastIndicatesClosed env.toastText = true
                  · rw [if_pos h9]; right; simp
                  · rw [if_neg h9]; left; simp

/-- C1: if the candidate id is already in the replied set at entry,
`attempt_reply` short-circuits with a skip result whose reason is
`duplicate` and performs no browser operation (empty operation trace); and
two sequential invocations with the same id — the second receiving the
first's resulting state — can never both produce the `"reply"` outcome,
because a successful first call inserts the id into the replied set and the
second call then hits the duplicate guard. -/
theorem attempt_reply_dedup (env1 env2 : ReplyEnv) (cand : Candidate) (d1 d2 : Bool)
    (replied : Finset Int) (stats : Stats) (timers : Timers) :
    (cand.tid ∈ replied →
      (attempt_reply env1 cand d1 replied stats timers).res =
        ⟨"skip", "duplicate", []⟩ ∧
      (attempt_reply env1 cand d1 replied stats timers).ops = []) ∧
    ¬((attempt_reply env1 cand d1 replied stats timers).res.action = "reply" ∧
      (attempt_reply env2 cand d2 (attempt_reply env1 cand d1 replied stats timers).replied
        (attempt_reply env1 cand d1 replied stats timers).stats
        (attempt_reply env1 cand d1 replied stats timers).timers).res.action = "reply") := by
  constructor
  · intro h
    unfold attempt_reply
    rw [if_pos h]
    exact ⟨rfl, rfl⟩
  · rintro ⟨ha1, ha2⟩
    rcases attempt_reply_outcome env1 cand d1 replied stats timers with h | h
    · have hmem : cand.tid ∈ (attempt_reply env1 cand d1 replied stats timers).replied := by
        rw [h.2.2.1]
        exact Finset.mem_insert_self _ _
      have hskip : (attempt_reply env2 cand d2
          (attempt_reply env1 cand d1 replied stats timers).replied
          (attempt_reply env1 cand d1 replied stats timers).stats
          (attempt_reply env1 cand d1 replied stats timers).timers).res.action = "skip" := by
        generalize hg : attempt_reply env1 cand d1 replied stats timers = o1 at hmem
        unfold attempt_reply
        rw [if_pos hmem]
      rw [hskip] at ha2
      exact absurd ha2 (by decide)
    · rw [h.1] at ha1
      exact absurd ha1 (by decide)

/-- Witness for `attempt_reply_dedup`: with id 42 already in the replied
set, the call returns the duplicate skip and touches no browser operation. -/
theorem attempt_reply_dedup_witness :
    (attempt_reply ⟨some none, true, true, true, some none, true, none, 0, 1, 2, 3⟩
        ⟨42, [], 0, (), []⟩ false {42} stats0 []).res =
      ⟨"skip", "duplicate", []⟩ ∧
    (attempt_reply ⟨some none, true, true, true, some none, true, none, 0, 1, 2, 3⟩
        ⟨42, [], 0, (), []⟩ false {42} stats0 []).ops = [] := by
  have h := attempt_reply_dedup
    ⟨some none, true, true, true, some none, true, none, 0, 1, 2, 3⟩
    ⟨some none, true, true, true, some none, true, none, 0, 1, 2, 3⟩
    ⟨42, [], 0, (), []⟩ false false {42} stats0 []
  exact h.1 (by decide)

/-- C9: every skip result of `attempt_reply` (reasons duplicate,
skip_tombol, net_error, dry_run, reply_closed) leaves the replied set
unchanged and issues no persistence write; the candidate id is added to the
replied set and persisted exactly on the `"reply"`/`"balas_ok"` terminal
outcome. -/
theorem attempt_reply_frame (env : ReplyEnv) (cand : Candidate) (dry_run : Bool)
    (replied : Finset Int) (stats : Stats) (timers : Timers) :
    ((attempt_reply env cand dry_run replied stats timers).res.action = "skip" →
      (attempt_reply env cand dry_run replied stats timers).res.reason ∈
        (["duplicate", "skip_tombol", "net_error", "dry_run", "reply_closed"] : List String) ∧
      (attempt_reply env cand dry_run replied stats timers).replied = replied ∧
      (attempt_reply env cand dry_run replied stats timers).writes = []) ∧
    ((attempt_reply env cand dry_run replied stats timers).res.action = "reply" →
      (attempt_reply env cand dry_run replied stats timers).res.reason = "balas_ok" ∧
      (attempt_reply env cand dry_run replied stats timers).replied = insert cand.tid replied ∧
      (attempt_reply env cand dry_run replied stats timers).writes =
        [insert cand.tid replied]) := by
  rcases attempt_reply_outcome env cand dry_run replied stats timers with h | h
  · constructor
    · intro hs
      rw [h.1] at hs
      exact absurd hs (by decide)
    · intro _
      exact ⟨h.2.1, h.2.2.1, h.2.2.2⟩
  · constructor
    · intro _
      exact ⟨h.2.1, h.2.2.1, h.2.2.2⟩
    · intro hr
      rw [h.1] at hr
      exact absurd hr (by decide)

/-- Witness for `attempt_reply_frame`: the closed-reply scenario — candidate
42, submit affordance disabled — skips and leaves id 42 out of the replied
set, with no write. -/
theorem attempt_reply_frame_witness :
    (attempt_reply ⟨some none, true, true, true, some (some "true"), true, none, 0, 1, 2, 3⟩
        ⟨42, [], 0, (), []⟩ false ∅ stats0 []).replied = ∅ ∧
    (attempt_reply ⟨some none, true, true, true, some (some "true"), true, none, 0, 1, 2, 3⟩
        ⟨42, [], 0, (), []⟩ false ∅ stats0 []).writes = [] := by
  have h := attempt_reply_frame
    ⟨some none, true, true, true, some (some "true"), true, none, 0, 1, 2, 3⟩
    ⟨42, [], 0, (), []⟩ false ∅ stats0 []
  have h2 := h.1 (by decide)
  exact ⟨h2.2.1, h2.2.2⟩
